import Mathlib

/-!
Verification of the "Sign in with Chutes" OAuth 2.0 + PKCE flow engine.

The definitions below are a shallow embedding of the TypeScript sources:
  * `packages/nextjs/lib/chutesAuth.ts` (config resolution, PKCE material,
    token exchange, userinfo fetch),
  * `packages/nextjs/api/auth/chutes/callback.ts` (the callback route handler),
  * the session and logout route handlers.

JavaScript string truthiness (`""` and `undefined`/`null` are falsy) is made
explicit via `Option String` together with the `truthy` predicate.  Network
and JSON-parsing effects are modelled by passing the observed response as an
explicit oracle argument; the handlers additionally record, in their result,
which network calls they performed and exactly which cookies they set or
cleared, so that temporal claims ("no network call happens on this path") and
frame claims ("these cookies are untouched") become statements about the
returned value.
-/

namespace ChutesAuth

/-- JS truthiness for an optional string: `undefined`/`null` and `""` are falsy. -/
def truthy : Option String → Bool
  | none => false
  | some s => s != ""

/-- JS `a || b` for an optional string `a` and a string default `b`. -/
def jsOr (a : Option String) (b : String) : String :=
  match a with
  | none => b
  | some s => if s = "" then b else s

/-- JS `a || null`: collapses an empty string to absence. -/
def jsOrNull (a : Option String) : Option String :=
  match a with
  | none => none
  | some s => if s = "" then none else some s

/-- The process environment variables read by `chutesAuth.ts`.
`none` models an unset variable. -/
structure Env where
  chutesIdpBaseUrl : Option String
  chutesOauthRedirectUri : Option String
  nextPublicAppUrl : Option String
  chutesOauthClientId : Option String
  chutesOauthClientSecret : Option String
  chutesOauthScopes : Option String
  deriving DecidableEq, Repr

/-- `OAuthConfig` record from `chutesAuth.ts`. -/
structure OAuthConfig where
  idpBaseUrl : String
  clientId : String
  clientSecret : String
  redirectUri : String
  scopes : String
  deriving DecidableEq, Repr

/-- `s.replace(/\/$/, "")`: drop one trailing slash if present. -/
def dropTrailingSlash (s : String) : String :=
  if s.data.getLast? = some '/' then String.mk s.data.dropLast else s

/-- The fixed callback path appended in `buildRedirectUri`. -/
def callbackPath : String := "/api/auth/chutes/callback"

/-- The hardcoded local-development fallback redirect URI. -/
def localFallback : String := "http://localhost:3000/api/auth/chutes/callback"

/-- Embedding of `buildRedirectUri` from `chutesAuth.ts` (lines 34-49). -/
def buildRedirectUri (env : Env) (requestOrigin : Option String) : String :=
  let envRedirect := env.chutesOauthRedirectUri
  let publicBase := env.nextPublicAppUrl
  if truthy envRedirect then jsOr envRedirect ""
  else if truthy publicBase then dropTrailingSlash (jsOr publicBase "") ++ callbackPath
  else if truthy requestOrigin then dropTrailingSlash (jsOr requestOrigin "") ++ callbackPath
  else localFallback

/-- `IDP_BASE_URL` module constant from `chutesAuth.ts` (line 32). -/
def idpBaseUrlOf (env : Env) : String :=
  jsOr env.chutesIdpBaseUrl "https://api.chutes.ai"

/-- The default scope list from `chutesAuth.ts` (line 56). -/
def defaultScopes : String := "openid profile chutes:invoke"

/-- Embedding of `getOAuthConfig` from `chutesAuth.ts` (lines 51-71); throwing
is modelled with `Except`. -/
def getOAuthConfig (env : Env) (requestOrigin : Option String) :
    Except String OAuthConfig :=
  let clientId := jsOr env.chutesOauthClientId ""
  let clientSecret := jsOr env.chutesOauthClientSecret ""
  let redirectUri := buildRedirectUri env requestOrigin
  let scopes := jsOr env.chutesOauthScopes defaultScopes
  if clientId = "" || clientSecret = "" then
    Except.error
      "Missing Chutes OAuth credentials. Set CHUTES_OAUTH_CLIENT_ID and CHUTES_OAUTH_CLIENT_SECRET."
  else
    Except.ok
      { idpBaseUrl := idpBaseUrlOf env, clientId := clientId,
        clientSecret := clientSecret, redirectUri := redirectUri,
        scopes := scopes }

/-- JSON body of a token-endpoint response, as the fields the code reads.
Every field is optional: the wire format need not match the TS type. -/
structure TokenJson where
  access_token : Option String
  refresh_token : Option String
  expires_in : Option Nat
  token_type : Option String
  error : Option String
  error_description : Option String
  deriving DecidableEq, Repr

/-- Observed HTTP reply of the token endpoint: `res.ok` plus the parsed body. -/
structure HttpReply where
  ok : Bool
  body : TokenJson
  deriving DecidableEq, Repr

/-- Error message computed by `exchangeCodeForTokens` on a non-ok HTTP status
(`chutesAuth.ts` line 125): `json?.error_description || json?.error ||
"Token exchange failed"`. -/
def tokenErrorMessage (body : TokenJson) : String :=
  jsOr body.error_description (jsOr body.error "Token exchange failed")

/-- Embedding of the response handling of `exchangeCodeForTokens`
(`chutesAuth.ts` lines 117-129); the network reply is passed as an oracle. -/
def exchangeCodeForTokens (reply : HttpReply) : Except String TokenJson :=
  if reply.ok then Except.ok reply.body
  else Except.error (tokenErrorMessage reply.body)

/-- URL the token requests are POSTed to (`chutesAuth.ts` line 107). -/
def tokenEndpoint (config : OAuthConfig) : String :=
  config.idpBaseUrl ++ "/idp/token"

/-- Form body POSTed by `exchangeCodeForTokens` (`chutesAuth.ts` lines 108-115). -/
def exchangeRequestBody (code codeVerifier : String) (config : OAuthConfig) :
    List (String × String) :=
  [("grant_type", "authorization_code"),
   ("code", code),
   ("redirect_uri", config.redirectUri),
   ("client_id", config.clientId),
   ("client_secret", config.clientSecret),
   ("code_verifier", codeVerifier)]

/-- Fields of a userinfo response the code reads. -/
structure UserInfo where
  sub : String
  username : Option String
  email : Option String
  name : Option String
  created_at : Option String
  deriving DecidableEq, Repr

/-- Observed outcome of a `fetchUserInfo` network call: the fetch can throw,
or complete with `null` (non-ok HTTP status, `chutesAuth.ts` lines 139-141),
or complete with a profile. -/
inductive UserinfoOutcome where
  | throws
  | done (result : Option UserInfo)
  deriving DecidableEq, Repr

/-- Modelled from the spec: `refreshTokens(refreshToken, config)` is exported
by `lib/chutesAuth.ts` and used in `docs/nextjs/FULL-GUIDE.md`, but its
implementation file is not under `src/`.  Per the spec it "POSTs
grant_type=refresh_token with the stored refresh token" to the token endpoint;
the client credentials follow the request sketch in `ARCHITECTURE.md`. -/
def refreshRequestBody (refreshToken : String) (config : OAuthConfig) :
    List (String × String) :=
  [("grant_type", "refresh_token"),
   ("refresh_token", refreshToken),
   ("client_id", config.clientId),
   ("client_secret", config.clientSecret)]

/-- Modelled from the spec: response handling of `refreshTokens`, which has the
"same error semantics as exchange"; the implementation is not under `src/`. -/
def refreshTokens (reply : HttpReply) : Except String TokenJson :=
  if reply.ok then Except.ok reply.body
  else Except.error (tokenErrorMessage reply.body)

/-- Modelled from the spec: caller-side bookkeeping after a refresh — "callers
must retain the old one if the response omits a new one".  Returns the refresh
token the caller stores after applying `bundle`. -/
def retainedRefreshToken (oldRefreshToken : String) (bundle : TokenJson) :
    String :=
  if truthy bundle.refresh_token then jsOr bundle.refresh_token ""
  else oldRefreshToken

/-- Effect of a route handler on one response cookie: leave it alone, clear it
(the code sets value `""` with `maxAge 0`), or set it to a value. -/
inductive CookieUpdate where
  | keep
  | clear
  | setTo (value : String)
  deriving DecidableEq, Repr

/-- A browser cookie after an update is applied: `clear` makes a subsequent
lookup return absent. -/
def applyUpdate (u : CookieUpdate) (old : Option String) : Option String :=
  match u with
  | CookieUpdate.keep => old
  | CookieUpdate.clear => none
  | CookieUpdate.setTo v => some v

/-- Query parameters of the inbound callback request (`callback.ts` 26-29);
`none` models an absent parameter. -/
structure CallbackParams where
  code : Option String
  state : Option String
  error : Option String
  error_description : Option String
  deriving DecidableEq, Repr

/-- Request cookies the callback reads (`callback.ts` 40-41). -/
structure FlowCookies where
  oauthState : Option String
  pkceVerifier : Option String
  deriving DecidableEq, Repr

/-- Stand-in for `JSON.stringify(userinfo)` when caching the profile cookie. -/
def encodeUserInfo (u : UserInfo) : String :=
  "\x7b\"sub\":\"" ++ u.sub ++ "\"\x7d"

/-- Everything observable about the callback handler run: the HTTP response
(status, redirect target, JSON error body), the update applied to each of the
five Chutes cookies, and which network calls were performed. -/
structure CallbackResponse where
  status : Nat
  redirect : Option String
  bodyError : Option String
  bodyErrorDescription : Option (Option String)
  setAccessToken : CookieUpdate
  setRefreshToken : CookieUpdate
  setUserinfo : CookieUpdate
  setOauthState : CookieUpdate
  setPkceVerifier : CookieUpdate
  exchangeCalled : Bool
  userinfoCalled : Bool
  deriving DecidableEq, Repr

/-- A JSON error response that touches no cookies. -/
def rejectWith (status : Nat) (msg : String) (exchanged : Bool) :
    CallbackResponse :=
  { status := status, redirect := none, bodyError := some msg,
    bodyErrorDescription := none,
    setAccessToken := CookieUpdate.keep, setRefreshToken := CookieUpdate.keep,
    setUserinfo := CookieUpdate.keep, setOauthState := CookieUpdate.keep,
    setPkceVerifier := CookieUpdate.keep,
    exchangeCalled := exchanged, userinfoCalled := false }

/-- The state-validation test of `callback.ts` line 52:
`!storedState || state !== storedState`. -/
def stateCheckFails (storedState : Option String) (state : String) : Bool :=
  !(truthy storedState) || (state != jsOr storedState "")

/-- Embedding of the callback route handler `GET` from
`packages/nextjs/api/auth/chutes/callback.ts`.  `origin` is the origin of the
request URL; `exchangeReply` and `userinfo` are oracles for the two network
calls (consumed only if the corresponding call is reached, as recorded by the
`exchangeCalled`/`userinfoCalled` fields of the result). -/
def callbackGET (p : CallbackParams) (origin : String) (jar : FlowCookies)
    (env : Env) (exchangeReply : HttpReply) (userinfo : UserinfoOutcome) :
    CallbackResponse :=
  -- lines 32-34: IDP-supplied error short-circuits everything
  if truthy p.error then
    { status := 400, redirect := none, bodyError := p.error,
      bodyErrorDescription := some p.error_description,
      setAccessToken := CookieUpdate.keep, setRefreshToken := CookieUpdate.keep,
      setUserinfo := CookieUpdate.keep, setOauthState := CookieUpdate.keep,
      setPkceVerifier := CookieUpdate.keep,
      exchangeCalled := false, userinfoCalled := false }
  else
    -- line 38: getOAuthConfig throws into the catch block (lines 117-120)
    match getOAuthConfig env (some origin) with
    | Except.error msg => rejectWith 500 msg false
    | Except.ok _config =>
      -- lines 44-49
      if !(truthy p.code) || !(truthy p.state) then
        rejectWith 400 "Missing code or state" false
      -- lines 51-54
      else if stateCheckFails jar.oauthState (jsOr p.state "") then
        rejectWith 400 "Invalid state" false
      -- lines 56-62
      else if !(truthy jar.pkceVerifier) then
        rejectWith 400 "Missing PKCE verifier" false
      else
        -- lines 64-69: the token exchange network call happens here
        match exchangeCodeForTokens exchangeReply with
        | Except.error msg => rejectWith 500 msg true
        | Except.ok tokenResult =>
          let accessToken := tokenResult.access_token
          -- lines 75-80
          if !(truthy accessToken) then
            rejectWith 500 "No access token returned" true
          else
            -- lines 82-116: redirect home, set session cookies, clear flow cookies
            { status := 307, redirect := some "/",
              bodyError := none, bodyErrorDescription := none,
              setAccessToken := CookieUpdate.setTo (jsOr accessToken ""),
              setRefreshToken :=
                if truthy tokenResult.refresh_token then
                  CookieUpdate.setTo (jsOr tokenResult.refresh_token "")
                else CookieUpdate.keep,
              setUserinfo :=
                match userinfo with
                | UserinfoOutcome.throws => CookieUpdate.keep
                | UserinfoOutcome.done none => CookieUpdate.keep
                | UserinfoOutcome.done (some u) =>
                    CookieUpdate.setTo (encodeUserInfo u),
              setOauthState := CookieUpdate.clear,
              setPkceVerifier := CookieUpdate.clear,
              exchangeCalled := true,
              userinfoCalled := true }

/-- Flow cookies as seen by a later request, after the callback response is
applied by the browser. -/
def applyToFlowCookies (r : CallbackResponse) (jar : FlowCookies) :
    FlowCookies :=
  { oauthState := applyUpdate r.setOauthState jar.oauthState,
    pkceVerifier := applyUpdate r.setPkceVerifier jar.pkceVerifier }

/-- JSON body returned by the session route. -/
structure SessionResponse where
  signedIn : Bool
  user : Option UserInfo
  deriving DecidableEq, Repr

/-- Embedding of the session route handler `GET` (session `route.ts`).
`accessToken` and `storedUser` are the raw cookie values; `parseOutcome` is
the observed result of `JSON.parse(storedUser)` coerced through the following
`if (!user)` truthiness test (`none` covers both a parse exception and a
parsed falsy value); `fetch` is the oracle for the lazy `fetchUserInfo` call
(together with the `getOAuthConfig()` call that precedes it, both inside one
`try`). -/
def sessionGET (accessToken storedUser : Option String)
    (parseOutcome : Option UserInfo) (env : Env) (fetch : UserinfoOutcome) :
    SessionResponse :=
  -- lines 14,18-20: `|| null` then signed-out on falsy token
  match jsOrNull accessToken with
  | none => { signedIn := false, user := none }
  | some _ =>
    -- lines 24-30: try to parse the cached profile
    let cached : Option UserInfo :=
      match jsOrNull storedUser with
      | none => none
      | some _ => parseOutcome
    -- lines 33-40: lazy fetch when nothing cached, all failures swallowed
    let user : Option UserInfo :=
      match cached with
      | some u => some u
      | none =>
        match getOAuthConfig env none with
        | Except.error _ => none
        | Except.ok _ =>
          match fetch with
          | UserinfoOutcome.throws => none
          | UserinfoOutcome.done r => r
    { signedIn := true, user := user }

/-- All five Chutes cookies, as stored in the browser. -/
structure CookieJar where
  accessToken : Option String
  refreshToken : Option String
  userinfo : Option String
  oauthState : Option String
  pkceVerifier : Option String
  deriving DecidableEq, Repr

/-- Response of the logout route handler `POST` (logout `route.ts`): the JSON
body `ok` and the update applied to each cookie. -/
structure LogoutResponse where
  ok : Bool
  setAccessToken : CookieUpdate
  setRefreshToken : CookieUpdate
  setUserinfo : CookieUpdate
  setOauthState : CookieUpdate
  setPkceVerifier : CookieUpdate
  deriving DecidableEq, Repr

/-- Embedding of the logout route handler: it reads nothing and
unconditionally clears all five cookies (logout `route.ts` lines 65-76). -/
def logoutPOST : LogoutResponse :=
  { ok := true,
    setAccessToken := CookieUpdate.clear, setRefreshToken := CookieUpdate.clear,
    setUserinfo := CookieUpdate.clear, setOauthState := CookieUpdate.clear,
    setPkceVerifier := CookieUpdate.clear }

/-- Cookie jar after the browser applies a logout response. -/
def applyLogout (r : LogoutResponse) (jar : CookieJar) : CookieJar :=
  { accessToken := applyUpdate r.setAccessToken jar.accessToken,
    refreshToken := applyUpdate r.setRefreshToken jar.refreshToken,
    userinfo := applyUpdate r.setUserinfo jar.userinfo,
    oauthState := applyUpdate r.setOauthState jar.oauthState,
    pkceVerifier := applyUpdate r.setPkceVerifier jar.pkceVerifier }

/-- The signed-out jar: no session and no in-flight flow material. -/
def emptyJar : CookieJar :=
  { accessToken := none, refreshToken := none, userinfo := none,
    oauthState := none, pkceVerifier := none }

/-! ### SHA-256 and base64url

`generatePkce` computes `challenge = base64url(SHA-256(verifier))` using
node's `crypto` module.  The hash and the (unpadded) base64url codec are
embedded here over byte lists, words being `Nat` reduced mod `2^32`. -/

/-- Reduce to a 32-bit word. -/
def w32 (n : Nat) : Nat := n % 4294967296

/-- 32-bit right rotation. -/
def rotr (x n : Nat) : Nat := w32 ((x >>> n) ||| (x <<< (32 - n)))

/-- 32-bit complement. -/
def wnot (x : Nat) : Nat := 4294967295 - w32 x

/-- SHA-256 round constants (decimal). -/
def kConstants : List Nat :=
  [1116352408, 1899447441, 3049323471,
   3921009573, 961987163, 1508970993,
   2453635748, 2870763221, 3624381080,
   310598401, 607225278, 1426881987,
   1925078388, 2162078206, 2614888103,
   3248222580, 3835390401, 4022224774,
   264347078, 604807628, 770255983,
   1249150122, 1555081692, 1996064986,
   2554220882, 2821834349, 2952996808,
   3210313671, 3336571891, 3584528711,
   113926993, 338241895, 666307205,
   773529912, 1294757372, 1396182291,
   1695183700, 1986661051, 2177026350,
   2456956037, 2730485921, 2820302411,
   3259730800, 3345764771, 3516065817,
   3600352804, 4094571909, 275423344,
   430227734, 506948616, 659060556,
   883997877, 958139571, 1322822218,
   1537002063, 1747873779, 1955562222,
   2024104815, 2227730452, 2361852424,
   2428436474, 2756734187, 3204031479,
   3329325298]

/-- SHA-256 initial hash value (decimal). -/
def hInit : List Nat :=
  [1779033703, 3144134277, 1013904242,
   2773480762, 1359893119, 2600822924,
   528734635, 1541459225]

/-- Big-endian byte expansion of `n` to `k` bytes. -/
def toBytesBE : Nat → Nat → List Nat
  | 0, _ => []
  | k + 1, n => toBytesBE k (n / 256) ++ [n % 256]

/-- SHA-256 padding: append `0x80`, zeros to 56 mod 64, then the 64-bit
big-endian bit length. -/
def padMessage (msg : List Nat) : List Nat :=
  let len := msg.length
  let zeros := (119 - len % 64) % 64
  msg ++ 128 :: List.replicate zeros 0 ++ toBytesBE 8 (len * 8)

/-- Group bytes into big-endian 32-bit words. -/
def bytesToWords : List Nat → List Nat
  | b0 :: b1 :: b2 :: b3 :: rest =>
      (b0 * 16777216 + b1 * 65536 + b2 * 256 + b3) :: bytesToWords rest
  | _ => []

/-- Message-schedule sigma-0. -/
def smallSigma0 (x : Nat) : Nat := (rotr x 7) ^^^ (rotr x 18) ^^^ (x >>> 3)

/-- Message-schedule sigma-1. -/
def smallSigma1 (x : Nat) : Nat := (rotr x 17) ^^^ (rotr x 19) ^^^ (x >>> 10)

/-- Extend 16 schedule words to 64. -/
def extendWords (ws : List Nat) : List Nat :=
  (List.range 48).foldl
    (fun acc _ =>
      let n := acc.length
      acc ++ [w32 (acc.getD (n - 16) 0 + smallSigma0 (acc.getD (n - 15) 0) +
                   acc.getD (n - 7) 0 + smallSigma1 (acc.getD (n - 2) 0))])
    ws

/-- Working state of the compression function. -/
structure Hash8 where
  a : Nat
  b : Nat
  c : Nat
  d : Nat
  e : Nat
  f : Nat
  g : Nat
  h : Nat
  deriving DecidableEq, Repr

/-- Compression Sigma-0. -/
def bigSigma0 (x : Nat) : Nat := (rotr x 2) ^^^ (rotr x 13) ^^^ (rotr x 22)

/-- Compression Sigma-1. -/
def bigSigma1 (x : Nat) : Nat := (rotr x 6) ^^^ (rotr x 11) ^^^ (rotr x 25)

/-- SHA-256 choice function. -/
def chFn (e f g : Nat) : Nat := (e &&& f) ^^^ ((wnot e) &&& g)

/-- SHA-256 majority function. -/
def majFn (a b c : Nat) : Nat :=
  Nat.xor (a &&& b) (Nat.xor (a &&& c) (b &&& c))

/-- One compression round, consuming a `(k, w)` pair. -/
def roundStep (st : Hash8) (kw : Nat × Nat) : Hash8 :=
  let t1 := w32 (st.h + bigSigma1 st.e + chFn st.e st.f st.g + kw.1 + kw.2)
  let t2 := w32 (bigSigma0 st.a + majFn st.a st.b st.c)
  { a := w32 (t1 + t2), b := st.a, c := st.b, d := st.c,
    e := w32 (st.d + t1), f := st.e, g := st.f, h := st.g }

/-- Compress one 64-byte block into the running hash. -/
def compressBlock (hs : List Nat) (block : List Nat) : List Nat :=
  let ws := extendWords (bytesToWords block)
  let st0 : Hash8 :=
    { a := hs.getD 0 0, b := hs.getD 1 0, c := hs.getD 2 0, d := hs.getD 3 0,
      e := hs.getD 4 0, f := hs.getD 5 0, g := hs.getD 6 0, h := hs.getD 7 0 }
  let st := (kConstants.zip ws).foldl roundStep st0
  [w32 (hs.getD 0 0 + st.a), w32 (hs.getD 1 0 + st.b),
   w32 (hs.getD 2 0 + st.c), w32 (hs.getD 3 0 + st.d),
   w32 (hs.getD 4 0 + st.e), w32 (hs.getD 5 0 + st.f),
   w32 (hs.getD 6 0 + st.g), w32 (hs.getD 7 0 + st.h)]

/-- Chunking worker, structurally recursive on a fuel bound. -/
def chunksGo : Nat → List Nat → List (List Nat)
  | 0, _ => []
  | _, [] => []
  | fuel + 1, b :: rest => (b :: rest).take 64 :: chunksGo fuel (rest.drop 63)

/-- Split a byte list into 64-byte chunks (fuel keeps recursion structural). -/
def chunks64 (l : List Nat) : List (List Nat) := chunksGo l.length l

/-- SHA-256 of a byte list. -/
def sha256 (msg : List Nat) : List Nat :=
  let hs := (chunks64 (padMessage msg)).foldl compressBlock hInit
  hs.foldr (fun w acc => toBytesBE 4 w ++ acc) []

/-- UTF-8 encoding of one character. -/
def utf8EncodeChar (c : Char) : List Nat :=
  let n := c.toNat
  if n < 128 then [n]
  else if n < 2048 then [192 + n / 64, 128 + n % 64]
  else if n < 65536 then [224 + n / 4096, 128 + (n / 64) % 64, 128 + n % 64]
  else [240 + n / 262144, 128 + (n / 4096) % 64, 128 + (n / 64) % 64,
        128 + n % 64]

/-- UTF-8 bytes of a string (node hashes the verifier as UTF-8). -/
def utf8Bytes (s : String) : List Nat :=
  s.data.foldr (fun c acc => utf8EncodeChar c ++ acc) []

/-- The base64url alphabet (RFC 4648 section 5). -/
def b64Alphabet : List Char :=
  String.data
    "ABCDEFGHIJKLMNOPQRSTUVWXYZabcdefghijklmnopqrstuvwxyz0123456789-_"

/-- Character for one 6-bit group. -/
def b64Char (n : Nat) : Char := b64Alphabet.getD n 'A'

/-- Unpadded base64url of a byte list, as node's `base64url` encoding: no `=`
characters are ever appended. -/
def base64urlChars : List Nat → List Char
  | [] => []
  | [b1] => [b64Char (b1 / 4), b64Char (b1 % 4 * 16)]
  | [b1, b2] =>
      [b64Char (b1 / 4), b64Char (b1 % 4 * 16 + b2 / 16),
       b64Char (b2 % 16 * 4)]
  | b1 :: b2 :: b3 :: rest =>
      b64Char (b1 / 4) :: b64Char (b1 % 4 * 16 + b2 / 16) ::
      b64Char (b2 % 16 * 4 + b3 / 64) :: b64Char (b3 % 64) ::
      base64urlChars rest

/-- Unpadded base64url of a byte list, as a string. -/
def base64url (bs : List Nat) : String := String.mk (base64urlChars bs)

/-- Embedding of the challenge computation in `generatePkce`
(`chutesAuth.ts` lines 79-80): SHA-256 the verifier, digest, base64url. -/
def pkceChallengeOfVerifier (verifier : String) : String :=
  base64url (sha256 (utf8Bytes verifier))

/-- The spec's description of the challenge: "challenge =
base64url(SHA-256(verifier)) with no padding characters". -/
def challengeSpec (verifier : String) : String :=
  base64url (sha256 (utf8Bytes verifier))

/-- Full cookie jar after the browser applies a callback response. -/
def applyCallback (r : CallbackResponse) (jar : CookieJar) : CookieJar :=
  { accessToken := applyUpdate r.setAccessToken jar.accessToken,
    refreshToken := applyUpdate r.setRefreshToken jar.refreshToken,
    userinfo := applyUpdate r.setUserinfo jar.userinfo,
    oauthState := applyUpdate r.setOauthState jar.oauthState,
    pkceVerifier := applyUpdate r.setPkceVerifier jar.pkceVerifier }

/-- A well-formed environment: credentials set, everything else unset. -/
def envOK : Env :=
  { chutesIdpBaseUrl := none, chutesOauthRedirectUri := none,
    nextPublicAppUrl := none, chutesOauthClientId := some "cid",
    chutesOauthClientSecret := some "sec", chutesOauthScopes := none }

end ChutesAuth

namespace ChutesAuth

/-! ### Theorems -/

/-- Claim C9: the logout operation unconditionally deletes all session
material (access token, refresh token, cached profile) and all in-flight flow
material (state, verifier) and always returns success; it is idempotent:
invoking logout from any starting jar, including an already-signed-out one,
succeeds and leaves no session remaining, so two consecutive logouts both
return success. -/
theorem logout_idempotent_clears_everything (jar : CookieJar) :
    logoutPOST.ok = true
    ∧ applyLogout logoutPOST jar = emptyJar
    ∧ applyLogout logoutPOST (applyLogout logoutPOST jar) = emptyJar
    ∧ applyLogout logoutPOST emptyJar = emptyJar := by
  refine ⟨rfl, ?_, ?_, ?_⟩ <;>
    simp [applyLogout, logoutPOST, applyUpdate, emptyJar]

/-- Claim C7: redirect-URI resolution is first-match-wins in the order
explicit override, public base URL + callback path, request origin + callback
path, hardcoded local fallback; and it is deterministic for identical
inputs. -/
theorem redirect_uri_resolution_order (env : Env) (origin : Option String) :
    (truthy env.chutesOauthRedirectUri = true →
      buildRedirectUri env origin = jsOr env.chutesOauthRedirectUri "")
    ∧ (truthy env.chutesOauthRedirectUri = false →
        truthy env.nextPublicAppUrl = true →
      buildRedirectUri env origin =
        dropTrailingSlash (jsOr env.nextPublicAppUrl "") ++ callbackPath)
    ∧ (truthy env.chutesOauthRedirectUri = false →
        truthy env.nextPublicAppUrl = false → truthy origin = true →
      buildRedirectUri env origin =
        dropTrailingSlash (jsOr origin "") ++ callbackPath)
    ∧ (truthy env.chutesOauthRedirectUri = false →
        truthy env.nextPublicAppUrl = false → truthy origin = false →
      buildRedirectUri env origin = localFallback)
    ∧ (∀ (env2 : Env) (origin2 : Option String), env2 = env → origin2 = origin →
        buildRedirectUri env2 origin2 = buildRedirectUri env origin) := by
  refine ⟨?_, ?_, ?_, ?_, ?_⟩
  · intro h1; simp [buildRedirectUri, h1]
  · intro h1 h2; simp [buildRedirectUri, h1, h2]
  · intro h1 h2 h3; simp [buildRedirectUri, h1, h2, h3]
  · intro h1 h2 h3; simp [buildRedirectUri, h1, h2, h3]
  · intro env2 origin2 he ho; rw [he, ho]

/-- Claim C7 witness: each branch of the resolution order exercised on
concrete environments. -/
theorem redirect_uri_resolution_order_witness :
    buildRedirectUri
      { envOK with chutesOauthRedirectUri := some "https://x/cb" }
      (some "http://o") = "https://x/cb"
    ∧ buildRedirectUri
      { envOK with nextPublicAppUrl := some "https://app.example/" }
      (some "http://o") = "https://app.example/api/auth/chutes/callback"
    ∧ buildRedirectUri envOK (some "http://o") =
        "http://o/api/auth/chutes/callback"
    ∧ buildRedirectUri envOK none = localFallback := by
  refine ⟨?_, ?_, ?_, ?_⟩
  · exact (redirect_uri_resolution_order
      { envOK with chutesOauthRedirectUri := some "https://x/cb" }
      (some "http://o")).1 (by decide)
  · exact ((redirect_uri_resolution_order
      { envOK with nextPublicAppUrl := some "https://app.example/" }
      (some "http://o")).2.1 (by decide) (by decide)).trans (by decide)
  · exact ((redirect_uri_resolution_order envOK (some "http://o")).2.2.1
      (by decide) (by decide) (by decide)).trans (by decide)
  · exact (redirect_uri_resolution_order envOK none).2.2.2.1
      (by decide) (by decide) (by decide)

/-- Claim C5: the refresh operation POSTs `grant_type=refresh_token` together
with the stored refresh token to the token endpoint, carries the same error
semantics as the code exchange, and a response omitting a new refresh token
leaves the previously stored refresh token retained. -/
theorem refresh_grant_and_retention (rt old : String) (config : OAuthConfig)
    (bundle : TokenJson) (homit : bundle.refresh_token = none) :
    ("grant_type", "refresh_token") ∈ refreshRequestBody rt config
    ∧ ("refresh_token", rt) ∈ refreshRequestBody rt config
    ∧ (∀ reply : HttpReply, refreshTokens reply = exchangeCodeForTokens reply)
    ∧ retainedRefreshToken old bundle = old := by
  refine ⟨?_, ?_, ?_, ?_⟩
  · simp [refreshRequestBody]
  · simp [refreshRequestBody]
  · intro reply; rfl
  · simp [retainedRefreshToken, homit, truthy]

/-- Claim C5 witness: the spec scenario — response `{access_token:"tok2"}`
with no `refresh_token` field retains the old token "old-rt". -/
theorem refresh_grant_and_retention_witness :
    retainedRefreshToken "old-rt"
      { access_token := some "tok2", refresh_token := none,
        expires_in := none, token_type := none, error := none,
        error_description := none } = "old-rt" :=
  (refresh_grant_and_retention "rt" "old-rt"
    { idpBaseUrl := "https://api.chutes.ai", clientId := "cid",
      clientSecret := "sec",
      redirectUri := "http://localhost:3000/api/auth/chutes/callback",
      scopes := defaultScopes }
    { access_token := some "tok2", refresh_token := none,
      expires_in := none, token_type := none, error := none,
      error_description := none } rfl).2.2.2

/-- A stored state differing from (or absent for) the returned state makes the
validation test of `callback.ts` line 52 fail. -/
theorem stateCheckFails_of_ne (st : Option String) (r : String)
    (h : st ≠ some r) : stateCheckFails st r = true := by
  cases st with
  | none => rfl
  | some s =>
    by_cases hs : s = ""
    · simp [stateCheckFails, truthy, hs]
    · have hr : r ≠ s := fun he => h (by rw [he])
      simp [stateCheckFails, truthy, jsOr, hs, hr]

/-- Claim C2: a callback whose returned state differs from the stored
StateToken, or arriving when no StateToken is stored, is rejected with the
InvalidState error and the token-exchange network call is never made; the
comparison is exact string equality (it succeeds exactly when a non-empty
stored token equals the returned value) and it happens before any network
call. -/
theorem invalid_state_short_circuit (p : CallbackParams) (origin : String)
    (jar : FlowCookies) (env : Env) (cfg : OAuthConfig) (reply : HttpReply)
    (ui : UserinfoOutcome)
    (herr : truthy p.error = false)
    (hcfg : getOAuthConfig env (some origin) = Except.ok cfg)
    (hcode : truthy p.code = true)
    (hstate : truthy p.state = true)
    (hbad : jar.oauthState ≠ some (jsOr p.state "")) :
    callbackGET p origin jar env reply ui = rejectWith 400 "Invalid state" false
    ∧ (callbackGET p origin jar env reply ui).exchangeCalled = false
    ∧ (∀ stored returned : String,
        stateCheckFails (some stored) returned = false ↔
          (stored ≠ "" ∧ returned = stored)) := by
  have hsc : stateCheckFails jar.oauthState (jsOr p.state "") = true :=
    stateCheckFails_of_ne _ _ hbad
  have hmain : callbackGET p origin jar env reply ui =
      rejectWith 400 "Invalid state" false := by
    simp [callbackGET, herr, hcfg, hcode, hstate, hsc]
  refine ⟨hmain, by rw [hmain]; rfl, ?_⟩
  intro stored returned
  by_cases hs : stored = ""
  · simp [stateCheckFails, truthy, hs]
  · constructor
    · intro hf
      refine ⟨hs, ?_⟩
      by_contra hne
      simp [stateCheckFails, truthy, jsOr, hs, hne] at hf
    · intro hand
      simp [stateCheckFails, truthy, jsOr, hs, hand.2]

/-- Claim C2 witness: stored state "abc", returned state "xyz", valid code and
verifier, yet the result is the InvalidState rejection with no exchange
call. -/
theorem invalid_state_short_circuit_witness :
    callbackGET
      { code := some "c", state := some "xyz", error := none,
        error_description := none }
      "http://localhost:3000"
      { oauthState := some "abc", pkceVerifier := some "v" }
      envOK
      { ok := true,
        body := { access_token := some "tok", refresh_token := none,
                  expires_in := none, token_type := none, error := none,
                  error_description := none } }
      UserinfoOutcome.throws = rejectWith 400 "Invalid state" false :=
  (invalid_state_short_circuit
    { code := some "c", state := some "xyz", error := none,
      error_description := none }
    "http://localhost:3000"
    { oauthState := some "abc", pkceVerifier := some "v" }
    envOK
    { idpBaseUrl := "https://api.chutes.ai", clientId := "cid",
      clientSecret := "sec",
      redirectUri := "http://localhost:3000/api/auth/chutes/callback",
      scopes := defaultScopes }
    { ok := true,
      body := { access_token := some "tok", refresh_token := none,
                expires_in := none, token_type := none, error := none,
                error_description := none } }
    UserinfoOutcome.throws
    (by decide) rfl (by decide) (by decide) (by decide)).1

/-- Claim C3: a callback carrying an IDP-supplied error parameter transitions
directly to a rejection surfacing the error and its description unchanged;
the result does not depend on the stored cookies, the environment or the
network oracles (so no state or verifier validation happened), and the
token-exchange call is never made. -/
theorem idp_error_short_circuit (p : CallbackParams)
    (herr : truthy p.error = true) :
    ∀ (origin : String) (jar : FlowCookies) (env : Env) (reply : HttpReply)
      (ui : UserinfoOutcome),
      callbackGET p origin jar env reply ui =
        { status := 400, redirect := none, bodyError := p.error,
          bodyErrorDescription := some p.error_description,
          setAccessToken := CookieUpdate.keep,
          setRefreshToken := CookieUpdate.keep,
          setUserinfo := CookieUpdate.keep,
          setOauthState := CookieUpdate.keep,
          setPkceVerifier := CookieUpdate.keep,
          exchangeCalled := false, userinfoCalled := false } := by
  intro origin jar env reply ui
  simp [callbackGET, herr]

/-- Claim C3 witness: `error=access_denied` short-circuits, surfacing the
error and description unchanged with no exchange call. -/
theorem idp_error_short_circuit_witness :
    callbackGET
      { code := some "c", state := some "abc",
        error := some "access_denied",
        error_description := some "User denied access" }
      "http://localhost:3000"
      { oauthState := some "abc", pkceVerifier := some "v" }
      envOK
      { ok := true,
        body := { access_token := some "tok", refresh_token := none,
                  expires_in := none, token_type := none, error := none,
                  error_description := none } }
      UserinfoOutcome.throws =
      { status := 400, redirect := none, bodyError := some "access_denied",
        bodyErrorDescription := some (some "User denied access"),
        setAccessToken := CookieUpdate.keep,
        setRefreshToken := CookieUpdate.keep,
        setUserinfo := CookieUpdate.keep,
        setOauthState := CookieUpdate.keep,
        setPkceVerifier := CookieUpdate.keep,
        exchangeCalled := false, userinfoCalled := false } :=
  idp_error_short_circuit
    { code := some "c", state := some "abc",
      error := some "access_denied",
      error_description := some "User denied access" }
    (by decide) "http://localhost:3000"
    { oauthState := some "abc", pkceVerifier := some "v" }
    envOK
    { ok := true,
      body := { access_token := some "tok", refresh_token := none,
                expires_in := none, token_type := none, error := none,
                error_description := none } }
    UserinfoOutcome.throws

/-- Claim C4: an HTTP-successful token-exchange response lacking
`access_token` is rejected with the NoAccessToken error instead of being
treated as success, and that rejection is surfaced distinctly from the
TokenExchangeError rejection produced by a non-success HTTP status. -/
theorem no_access_token_distinct (p : CallbackParams) (origin : String)
    (jar : FlowCookies) (env : Env) (cfg : OAuthConfig) (ui : UserinfoOutcome)
    (reply1 reply2 : HttpReply)
    (herr : truthy p.error = false)
    (hcfg : getOAuthConfig env (some origin) = Except.ok cfg)
    (hcode : truthy p.code = true)
    (hstate : truthy p.state = true)
    (hpass : stateCheckFails jar.oauthState (jsOr p.state "") = false)
    (hver : truthy jar.pkceVerifier = true)
    (h1ok : reply1.ok = true)
    (h1no : truthy reply1.body.access_token = false)
    (h2ok : reply2.ok = false) :
    callbackGET p origin jar env reply1 ui =
      rejectWith 500 "No access token returned" true
    ∧ (callbackGET p origin jar env reply1 ui).redirect = none
    ∧ callbackGET p origin jar env reply2 ui =
      rejectWith 500 (tokenErrorMessage reply2.body) true
    ∧ (tokenErrorMessage reply2.body ≠ "No access token returned" →
        (callbackGET p origin jar env reply1 ui).bodyError ≠
          (callbackGET p origin jar env reply2 ui).bodyError) := by
  have e1 : callbackGET p origin jar env reply1 ui =
      rejectWith 500 "No access token returned" true := by
    simp [callbackGET, herr, hcfg, hcode, hstate, hpass, hver,
      exchangeCodeForTokens, h1ok, h1no]
  have e2 : callbackGET p origin jar env reply2 ui =
      rejectWith 500 (tokenErrorMessage reply2.body) true := by
    simp [callbackGET, herr, hcfg, hcode, hstate, hpass, hver,
      exchangeCodeForTokens, h2ok]
  refine ⟨e1, by rw [e1]; rfl, e2, ?_⟩
  intro hm
  rw [e1, e2]
  simp [rejectWith]
  exact fun h => hm h.symm

/-- Claim C4 witness: a 200 reply whose body is `\x7b\x7d` yields the
NoAccessToken rejection, while an error reply with
`error_description = "invalid_grant"` yields a distinct TokenExchangeError
rejection. -/
theorem no_access_token_distinct_witness :
    callbackGET
      { code := some "c", state := some "abc", error := none,
        error_description := none }
      "http://localhost:3000"
      { oauthState := some "abc", pkceVerifier := some "v" }
      envOK
      { ok := true,
        body := { access_token := none, refresh_token := none,
                  expires_in := none, token_type := none, error := none,
                  error_description := none } }
      UserinfoOutcome.throws =
      rejectWith 500 "No access token returned" true
    ∧ callbackGET
      { code := some "c", state := some "abc", error := none,
        error_description := none }
      "http://localhost:3000"
      { oauthState := some "abc", pkceVerifier := some "v" }
      envOK
      { ok := false,
        body := { access_token := none, refresh_token := none,
                  expires_in := none, token_type := none, error := none,
                  error_description := some "invalid_grant" } }
      UserinfoOutcome.throws =
      rejectWith 500 "invalid_grant" true := by
  have h := no_access_token_distinct
    { code := some "c", state := some "abc", error := none,
      error_description := none }
    "http://localhost:3000"
    { oauthState := some "abc", pkceVerifier := some "v" }
    envOK
    { idpBaseUrl := "https://api.chutes.ai", clientId := "cid",
      clientSecret := "sec",
      redirectUri := "http://localhost:3000/api/auth/chutes/callback",
      scopes := defaultScopes }
    UserinfoOutcome.throws
    { ok := true,
      body := { access_token := none, refresh_token := none,
                expires_in := none, token_type := none, error := none,
                error_description := none } }
    { ok := false,
      body := { access_token := none, refresh_token := none,
                expires_in := none, token_type := none, error := none,
                error_description := some "invalid_grant" } }
    (by decide) rfl (by decide) (by decide) (by decide) (by decide)
    (by decide) (by decide) (by decide)
  exact ⟨h.1, h.2.2.1.trans (by decide)⟩

/-- Claim C1 counterexample: a callback that reaches the validation stage and
is rejected (stored state "abc", returned state "xyz") leaves both the stored
StateToken and the PKCE verifier present — a subsequent lookup still returns
them, contradicting the claim that they are invalidated on every outcome. -/
theorem rejected_callback_keeps_flow_cookies_cx :
    (callbackGET
      { code := some "c", state := some "xyz", error := none,
        error_description := none }
      "http://localhost:3000"
      { oauthState := some "abc", pkceVerifier := some "v" }
      envOK
      { ok := true,
        body := { access_token := some "tok", refresh_token := none,
                  expires_in := none, token_type := none, error := none,
                  error_description := none } }
      UserinfoOutcome.throws).bodyError = some "Invalid state"
    ∧ applyToFlowCookies
        (callbackGET
          { code := some "c", state := some "xyz", error := none,
            error_description := none }
          "http://localhost:3000"
          { oauthState := some "abc", pkceVerifier := some "v" }
          envOK
          { ok := true,
            body := { access_token := some "tok", refresh_token := none,
                      expires_in := none, token_type := none, error := none,
                      error_description := none } }
          UserinfoOutcome.throws)
        { oauthState := some "abc", pkceVerifier := some "v" } =
      { oauthState := some "abc", pkceVerifier := some "v" } := by
  decide

/-- Claim C1 (amended): the stored StateToken and PKCE verifier are
invalidated exactly on the success path — after a successful token exchange
that yielded an access token — so a subsequent lookup returns absent there;
on every rejection path the two flow cookies are left untouched (they expire
only via their storage TTL). -/
theorem flow_cookies_cleared_only_on_success (p : CallbackParams)
    (origin : String) (jar : FlowCookies) (env : Env) (reply : HttpReply)
    (ui : UserinfoOutcome) :
    ((callbackGET p origin jar env reply ui).redirect ≠ none →
      applyToFlowCookies (callbackGET p origin jar env reply ui) jar =
        { oauthState := none, pkceVerifier := none })
    ∧ ((callbackGET p origin jar env reply ui).redirect = none →
      applyToFlowCookies (callbackGET p origin jar env reply ui) jar =
        jar) := by
  unfold callbackGET
  repeat' split
  all_goals simp [rejectWith, applyToFlowCookies, applyUpdate]
  all_goals split
  all_goals simp

/-- Claim C1 (amended) witness: a successful callback clears both flow
cookies; the rejected callback of the counterexample leaves them as they
were. -/
theorem flow_cookies_cleared_only_on_success_witness :
    applyToFlowCookies
      (callbackGET
        { code := some "c", state := some "abc", error := none,
          error_description := none }
        "http://localhost:3000"
        { oauthState := some "abc", pkceVerifier := some "v" }
        envOK
        { ok := true,
          body := { access_token := some "tok", refresh_token := none,
                    expires_in := none, token_type := none, error := none,
                    error_description := none } }
        (UserinfoOutcome.done none))
      { oauthState := some "abc", pkceVerifier := some "v" } =
      { oauthState := none, pkceVerifier := none }
    ∧ applyToFlowCookies
      (callbackGET
        { code := some "c", state := some "xyz", error := none,
          error_description := none }
        "http://localhost:3000"
        { oauthState := some "abc", pkceVerifier := some "v" }
        envOK
        { ok := true,
          body := { access_token := some "tok", refresh_token := none,
                    expires_in := none, token_type := none, error := none,
                    error_description := none } }
        (UserinfoOutcome.done none))
      { oauthState := some "abc", pkceVerifier := some "v" } =
      { oauthState := some "abc", pkceVerifier := some "v" } :=
  ⟨(flow_cookies_cleared_only_on_success
      { code := some "c", state := some "abc", error := none,
        error_description := none }
      "http://localhost:3000"
      { oauthState := some "abc", pkceVerifier := some "v" }
      envOK
      { ok := true,
        body := { access_token := some "tok", refresh_token := none,
                  expires_in := none, token_type := none, error := none,
                  error_description := none } }
      (UserinfoOutcome.done none)).1 (by decide),
   (flow_cookies_cleared_only_on_success
      { code := some "c", state := some "xyz", error := none,
        error_description := none }
      "http://localhost:3000"
      { oauthState := some "abc", pkceVerifier := some "v" }
      envOK
      { ok := true,
        body := { access_token := some "tok", refresh_token := none,
                  expires_in := none, token_type := none, error := none,
                  error_description := none } }
      (UserinfoOutcome.done none)).2 (by decide)⟩

/-- Claim C10: every rejected callback leaves the session material — access
token, refresh token and cached user profile — untouched: the handler issues
no update for those cookies, so an existing signed-in session survives any
failed callback attempt. -/
theorem rejected_callback_preserves_session (p : CallbackParams)
    (origin : String) (jar : FlowCookies) (env : Env) (reply : HttpReply)
    (ui : UserinfoOutcome) (full : CookieJar)
    (hrej : (callbackGET p origin jar env reply ui).redirect = none) :
    (callbackGET p origin jar env reply ui).setAccessToken = CookieUpdate.keep
    ∧ (callbackGET p origin jar env reply ui).setRefreshToken =
        CookieUpdate.keep
    ∧ (callbackGET p origin jar env reply ui).setUserinfo = CookieUpdate.keep
    ∧ (applyCallback (callbackGET p origin jar env reply ui) full).accessToken
        = full.accessToken
    ∧ (applyCallback (callbackGET p origin jar env reply ui) full).refreshToken
        = full.refreshToken
    ∧ (applyCallback (callbackGET p origin jar env reply ui) full).userinfo
        = full.userinfo := by
  revert hrej
  unfold callbackGET
  repeat' split
  all_goals simp [rejectWith, applyCallback, applyUpdate]
  all_goals split
  all_goals simp

/-- Claim C10 witness: a rejected callback (invalid state) with a signed-in
session stored leaves access token, refresh token and cached profile
unchanged. -/
theorem rejected_callback_preserves_session_witness :
    (applyCallback
      (callbackGET
        { code := some "c", state := some "xyz", error := none,
          error_description := none }
        "http://localhost:3000"
        { oauthState := some "abc", pkceVerifier := some "v" }
        envOK
        { ok := true,
          body := { access_token := some "tok", refresh_token := none,
                    expires_in := none, token_type := none, error := none,
                    error_description := none } }
        UserinfoOutcome.throws)
      { accessToken := some "oldtok", refreshToken := some "oldrt",
        userinfo := some "olduser", oauthState := some "abc",
        pkceVerifier := some "v" }).accessToken = some "oldtok" :=
  (rejected_callback_preserves_session
    { code := some "c", state := some "xyz", error := none,
      error_description := none }
    "http://localhost:3000"
    { oauthState := some "abc", pkceVerifier := some "v" }
    envOK
    { ok := true,
      body := { access_token := some "tok", refresh_token := none,
                expires_in := none, token_type := none, error := none,
                error_description := none } }
    UserinfoOutcome.throws
    { accessToken := some "oldtok", refreshToken := some "oldrt",
      userinfo := some "olduser", oauthState := some "abc",
      pkceVerifier := some "v" }
    (by decide)).2.2.2.1

/-- Claim C8: the session query reports signed-out whenever no access token is
stored; with a token it reports signed-in with the cached profile when one is
present, and when nothing is cached a failing lazy fetch degrades to
signed-in with an unknown (null) profile instead of failing the query. -/
theorem session_query_report (tok cached : Option String)
    (parse : Option UserInfo) (env : Env) (fetch : UserinfoOutcome) :
    (jsOrNull tok = none →
      sessionGET tok cached parse env fetch =
        { signedIn := false, user := none })
    ∧ (∀ t u, jsOrNull tok = some t → jsOrNull cached ≠ none →
        parse = some u →
      sessionGET tok cached parse env fetch =
        { signedIn := true, user := some u })
    ∧ (∀ t, jsOrNull tok = some t →
        (match jsOrNull cached with
          | none => (none : Option UserInfo)
          | some _ => parse) = none →
        ((∃ e, getOAuthConfig env none = Except.error e)
          ∨ fetch = UserinfoOutcome.throws
          ∨ fetch = UserinfoOutcome.done none) →
      sessionGET tok cached parse env fetch =
        { signedIn := true, user := none }) := by
  refine ⟨?_, ?_, ?_⟩
  · intro h; simp [sessionGET, h]
  · intro t u ht hc hp
    cases hcv : jsOrNull cached with
    | none => exact absurd hcv hc
    | some c => simp [sessionGET, ht, hcv, hp]
  · intro t ht hcache hfail
    cases hcv : jsOrNull cached with
    | none =>
      rcases hfail with ⟨e, he⟩ | hf | hf
      · simp [sessionGET, ht, hcv, he]
      · simp [sessionGET, ht, hcv, hf]
        cases hcfg : getOAuthConfig env none <;> simp
      · simp [sessionGET, ht, hcv, hf]
        cases hcfg : getOAuthConfig env none <;> simp
    | some c =>
      rw [hcv] at hcache
      simp at hcache
      rcases hfail with ⟨e, he⟩ | hf | hf
      · simp [sessionGET, ht, hcv, hcache, he]
      · simp [sessionGET, ht, hcv, hcache, hf]
        cases hcfg : getOAuthConfig env none <;> simp
      · simp [sessionGET, ht, hcv, hcache, hf]
        cases hcfg : getOAuthConfig env none <;> simp

/-- Claim C8 witness: signed-out with no token; signed-in with a cached
profile; signed-in with unknown profile when the lazy fetch throws. -/
theorem session_query_report_witness :
    sessionGET none none none envOK UserinfoOutcome.throws =
      { signedIn := false, user := none }
    ∧ sessionGET (some "tok") (some "cached")
        (some { sub := "u1", username := none, email := none, name := none,
                created_at := none }) envOK UserinfoOutcome.throws =
      { signedIn := true,
        user := some { sub := "u1", username := none, email := none,
                       name := none, created_at := none } }
    ∧ sessionGET (some "tok") none none envOK UserinfoOutcome.throws =
      { signedIn := true, user := none } := by
  refine ⟨?_, ?_, ?_⟩
  · exact (session_query_report none none none envOK
      UserinfoOutcome.throws).1 (by decide)
  · exact (session_query_report (some "tok") (some "cached") _ envOK
      UserinfoOutcome.throws).2.1 "tok" _ (by decide) (by decide) rfl
  · exact (session_query_report (some "tok") none none envOK
      UserinfoOutcome.throws).2.2 "tok" (by decide) (by decide)
      (Or.inr (Or.inl rfl))

/-- No index produces the padding character from the base64url alphabet. -/
theorem b64Char_ne_pad (n : Nat) : b64Char n ≠ '=' := by
  rcases Nat.lt_or_ge n 64 with h | h
  · have hb : ∀ m < 64, b64Char m ≠ '=' := by decide
    exact hb n h
  · unfold b64Char
    rw [List.getD_eq_default]
    · decide
    · have hl : b64Alphabet.length = 64 := by decide
      omega

/-- The base64url encoder never emits a padding character. -/
theorem base64urlChars_ne_pad :
    ∀ (bs : List Nat), ∀ c ∈ base64urlChars bs, c ≠ '='
  | [] => by intro c hc; simp [base64urlChars] at hc
  | [b1] => by
      intro c hc
      simp only [base64urlChars, List.mem_cons, List.not_mem_nil,
        or_false] at hc
      rcases hc with h | h <;> (subst h; exact b64Char_ne_pad _)
  | [b1, b2] => by
      intro c hc
      simp only [base64urlChars, List.mem_cons, List.not_mem_nil,
        or_false] at hc
      rcases hc with h | h | h <;> (subst h; exact b64Char_ne_pad _)
  | b1 :: b2 :: b3 :: rest => by
      intro c hc
      simp only [base64urlChars, List.mem_cons] at hc
      rcases hc with h | h | h | h | h
      · subst h; exact b64Char_ne_pad _
      · subst h; exact b64Char_ne_pad _
      · subst h; exact b64Char_ne_pad _
      · subst h; exact b64Char_ne_pad _
      · exact base64urlChars_ne_pad rest c h

/-- Claim C6: the PKCE challenge computed by `generatePkce` equals the
base64url encoding of the SHA-256 digest of the verifier as the spec words
it, that encoding contains no padding character, and the mapping from
verifier to challenge is a deterministic pure function of the verifier. -/
theorem pkce_challenge_base64url_sha256 (v : String) :
    pkceChallengeOfVerifier v = challengeSpec v
    ∧ ('=' ∈ (pkceChallengeOfVerifier v).data → False)
    ∧ (∀ w : String, w = v →
        pkceChallengeOfVerifier w = pkceChallengeOfVerifier v) := by
  refine ⟨rfl, ?_, ?_⟩
  · intro h
    exact base64urlChars_ne_pad (sha256 (utf8Bytes v)) '=' h rfl
  · intro w hw; rw [hw]

set_option maxRecDepth 10000 in
/-- Claim C6 witness: on the verifier "abc" the challenge is the base64url of
the NIST SHA-256 test vector, padding-free. -/
theorem pkce_challenge_base64url_sha256_witness :
    pkceChallengeOfVerifier "abc" =
      "ungWv48Bz-pBQUDeXa4iI7ADYaOWF3qctBD_YfIAFa0"
    ∧ ('=' ∈ (pkceChallengeOfVerifier "abc").data → False) :=
  ⟨by decide, (pkce_challenge_base64url_sha256 "abc").2.1⟩

end ChutesAuth
